import Mathlib

/-!
Verification of the PawPals client-side authentication controller
(`src/authentication.js`).

Strings from the JavaScript source are modelled as `List Char` (one entry
per character).  A JavaScript string is falsy exactly when it is empty, so
the `!value` guards of the source become emptiness tests.  The two regular
expressions of the source are embedded as executable matchers that follow
the structure of the patterns; the DOM / localStorage side effects of the
submit handlers are modelled as ordered effect traces.
-/

namespace PawPals

/-! ## Character classes used by the source's regular expressions -/

/-- Membership in the character class `[a-zA-Z0-9_]` of the username
pattern `/^[a-zA-Z0-9_]{3,20}$/` (authentication.js line 218/357). -/
def isWordChar (c : Char) : Bool :=
  ('a' ≤ c && c ≤ 'z') || ('A' ≤ c && c ≤ 'Z') || ('0' ≤ c && c ≤ '9') || c == '_'

/-- Membership in `[a-zA-Z]`, the letter lookahead of the password rule
`/(?=.*[a-zA-Z])(?=.*[0-9])/` (authentication.js line 292/431). -/
def isLetterChar (c : Char) : Bool :=
  ('a' ≤ c && c ≤ 'z') || ('A' ≤ c && c ≤ 'Z')

/-- Membership in `[0-9]`, the digit lookahead of the password rule. -/
def isDigitChar (c : Char) : Bool :=
  '0' ≤ c && c ≤ '9'

/-- The ECMAScript LineTerminator characters (LF, CR, LS, PS).  In a
regular expression without the `s` flag, `.` matches any character except
these. -/
def isLineTerminator (c : Char) : Bool :=
  c == Char.ofNat 10 || c == Char.ofNat 13 ||
  c == Char.ofNat 0x2028 || c == Char.ofNat 0x2029

/-- The JavaScript regular-expression class `\s` (ECMAScript WhiteSpace
plus LineTerminator characters). -/
def isJsWhitespace (c : Char) : Bool :=
  c == ' ' || c == Char.ofNat 9 || c == Char.ofNat 10 || c == Char.ofNat 11 ||
  c == Char.ofNat 12 || c == Char.ofNat 13 || c == Char.ofNat 0xa0 ||
  c == Char.ofNat 0x1680 || (0x2000 ≤ c.toNat && c.toNat ≤ 0x200a) ||
  c == Char.ofNat 0x2028 || c == Char.ofNat 0x2029 || c == Char.ofNat 0x202f ||
  c == Char.ofNat 0x205f || c == Char.ofNat 0x3000 || c == Char.ofNat 0xfeff

/-- Membership in `[^\s@]`, the character class of the email pattern
`/^[^\s@]+@[^\s@]+\.[^\s@]+$/` (authentication.js line 247/386). -/
def emailCharOk (c : Char) : Bool :=
  !(c == '@') && !(isJsWhitespace c)

/-! ## Matcher for `/^[a-zA-Z0-9_]{3,20}$/`

The anchored bounded repetition is matched by scanning the word characters
while counting them and checking the count against the bounds at the end of
the input. -/

/-- Scanner for the anchored repetition `[a-zA-Z0-9_]{3,20}$`: `n` counts
the characters consumed so far. -/
def usernameGo : List Char → Nat → Bool
  | [], n => decide (3 ≤ n) && decide (n ≤ 20)
  | c :: rest, n => isWordChar c && usernameGo rest (n + 1)

/-- `usernameRegex.test(s)` for `usernameRegex = /^[a-zA-Z0-9_]{3,20}$/`
(authentication.js line 218/357). -/
def usernameRegexTest (s : List Char) : Bool :=
  usernameGo s 0

/-! ## Matcher for `/^[^\s@]+@[^\s@]+\.[^\s@]+$/`

The pattern is embedded as a small nondeterministic matcher, one function
per state of the pattern, with the choice points of backtracking expressed
as boolean disjunctions. -/

/-- State after the literal dot: the remaining input must match
`[^\s@]+$`. -/
def matchAfterDot (l : List Char) : Bool :=
  !(l.isEmpty) && l.all emailCharOk

/-- State inside `[^\s@]+\.[^\s@]+$` after at least one character of the
middle block has been consumed: either the next character is the literal
dot, or one more `[^\s@]` character is consumed. -/
def matchDotRest : List Char → Bool
  | [] => false
  | c :: rest => (c == '.' && matchAfterDot rest) || (emailCharOk c && matchDotRest rest)

/-- State after the `@`: the remaining input must match
`[^\s@]+\.[^\s@]+$`. -/
def matchDomain : List Char → Bool
  | [] => false
  | c :: rest => emailCharOk c && matchDotRest rest

/-- State inside `[^\s@]+@...` after at least one character of the local
part has been consumed: either the next character is the literal `@`, or
one more `[^\s@]` character is consumed. -/
def matchAtRest : List Char → Bool
  | [] => false
  | c :: rest => (c == '@' && matchDomain rest) || (emailCharOk c && matchAtRest rest)

/-- `emailRegex.test(s)` for `emailRegex = /^[^\s@]+@[^\s@]+\.[^\s@]+$/`
(authentication.js line 247/386). -/
def emailRegexTest : List Char → Bool
  | [] => false
  | c :: rest => emailCharOk c && matchAtRest rest

/-! ## Matcher for `/(?=.*[a-zA-Z])(?=.*[0-9])/`

Without the `s` flag, `.` does not match the line terminators, so
`.*[class]` starting at a position succeeds exactly when a character of
the class occurs at or after that position with no line terminator in
between.  The unanchored `test` tries every start position, evaluating
both lookaheads at the same position. -/

/-- Match of `.*X` (with `X` the character class `p`) at the head of the
input: either `X` matches immediately, or `.` consumes one
non-line-terminator character and the match continues. -/
def dotStarClass (p : Char → Bool) : List Char → Bool
  | [] => false
  | c :: rest => p c || (!(isLineTerminator c) && dotStarClass p rest)

/-- `/(?=.*[a-zA-Z])(?=.*[0-9])/.test(s)` (authentication.js line
292/431): some start position satisfies both lookaheads.  At the suffix
past the end both lookaheads fail, so that position need not be tried. -/
def lookaheadTest : List Char → Bool
  | [] => false
  | c :: rest =>
      (dotStarClass isLetterChar (c :: rest) && dotStarClass isDigitChar (c :: rest)) ||
      lookaheadTest rest

/-! ## Pure validators (the `errorElementId = null` call path)

These embed the boolean results of `AuthController.validateUsername`,
`validateEmail` and `validatePassword` when called with a string and no
error-element id, in which case every `if (errorElementId) ...` display
statement is skipped.  The `typeof x === 'object'` branch handles calls
with a DOM event instead of a string and is outside this model. -/

/-- Boolean result of `AuthController.validateUsername(username, null)`
(authentication.js lines 217-238 and 356-377). -/
def validateUsername (username : List Char) : Bool :=
  if username = [] then false
  else if !(usernameRegexTest username) then false
  else true

/-- Boolean result of `AuthController.validateEmail(email, null)`
(authentication.js lines 246-267 and 385-406). -/
def validateEmail (email : List Char) : Bool :=
  if email = [] then false
  else if !(emailRegexTest email) then false
  else true

/-- Boolean result of `AuthController.validatePassword(password, null)`
(authentication.js lines 275-299 and 414-438).  The composition check is
the unanchored lookahead test `/(?=.*[a-zA-Z])(?=.*[0-9])/.test(p)`,
embedded by `lookaheadTest`; since `.` does not match line terminators,
it requires a letter and a digit reachable from a common start position
without crossing a line terminator. -/
def validatePassword (password : List Char) : Bool :=
  if password = [] then false
  else if password.length < 8 then false
  else if !(lookaheadTest password) then false
  else true

/-! ## Effects

The DOM, notification, navigation and localStorage side effects of the
controller are modelled as an ordered trace of effects.  `setLoading`
embeds `setLoadingState`, `apiCall` the start of `simulateAPICall`,
`notifyEffect` a `showNotification` call, `navigate` an assignment to
`window.location.href`, `setFieldValue` an assignment to an input field's
`value`, `storageSet`/`storageRemove` the localStorage operations, and
`showErrAct`/`clearErrAct` the `showFieldError`/`clearFieldError` calls.
`hideElem`/`showElem` model adding/removing the `hidden` class. -/

inductive Effect where
  | setLoading (buttonId : String) (isLoading : Bool)
  | apiCall (delay : Nat)
  | notifyEffect (message : String) (ntype : String)
  | navigate (url : String)
  | setFieldValue (fieldId : String) (value : List Char)
  | storageSet (key : String) (value : List Char)
  | storageRemove (key : String)
  | showErrAct (elementId : String) (message : String)
  | clearErrAct (elementId : String)
  | hideElem (elementId : String)
  | showElem (elementId : String)
deriving DecidableEq

/-- The effect of an `if (errorElementId) this.showFieldError(...)`
statement: a `showErrAct` when an error-element id was supplied, nothing
otherwise. -/
def optShow (errorElementId : Option String) (message : String) : List Effect :=
  match errorElementId with
  | some i => [Effect.showErrAct i message]
  | none => []

/-- The effect of an `if (errorElementId) this.clearFieldError(...)`
statement. -/
def optClear (errorElementId : Option String) : List Effect :=
  match errorElementId with
  | some i => [Effect.clearErrAct i]
  | none => []

/-! ## The duplicated validator definitions

`authentication.js` contains each of `validateUsername`, `validateEmail`,
`validatePassword` and `validatePasswordConfirm` twice in the class body
(the second occurrence is the one bound on the class).  Both occurrences
are transcribed separately, with their boolean result and their
error-display effects. -/

/-- `AuthController.validateUsername` as defined the first time
(authentication.js lines 217-238): boolean result and error-display
effects. -/
def validateUsernameFst (username : List Char) (errorElementId : Option String) :
    Bool × List Effect :=
  if username = [] then
    (false, optShow errorElementId "Username is required")
  else if !(usernameRegexTest username) then
    (false, optShow errorElementId
      "Username must be 3-20 characters, letters, numbers, and underscores only")
  else
    (true, optClear errorElementId)

/-- `AuthController.validateUsername` as defined the second time
(authentication.js lines 356-377). -/
def validateUsernameSnd (username : List Char) (errorElementId : Option String) :
    Bool × List Effect :=
  if username = [] then
    (false, optShow errorElementId "Username is required")
  else if !(usernameRegexTest username) then
    (false, optShow errorElementId
      "Username must be 3-20 characters, letters, numbers, and underscores only")
  else
    (true, optClear errorElementId)

/-- `AuthController.validateEmail` as defined the first time
(authentication.js lines 246-267). -/
def validateEmailFst (email : List Char) (errorElementId : Option String) :
    Bool × List Effect :=
  if email = [] then
    (false, optShow errorElementId "Email is required")
  else if !(emailRegexTest email) then
    (false, optShow errorElementId "Please enter a valid email address")
  else
    (true, optClear errorElementId)

/-- `AuthController.validateEmail` as defined the second time
(authentication.js lines 385-406). -/
def validateEmailSnd (email : List Char) (errorElementId : Option String) :
    Bool × List Effect :=
  if email = [] then
    (false, optShow errorElementId "Email is required")
  else if !(emailRegexTest email) then
    (false, optShow errorElementId "Please enter a valid email address")
  else
    (true, optClear errorElementId)

/-- `AuthController.validatePassword` as defined the first time
(authentication.js lines 275-299). -/
def validatePasswordFst (password : List Char) (errorElementId : Option String) :
    Bool × List Effect :=
  if password = [] then
    (false, optShow errorElementId "Password is required")
  else if password.length < 8 then
    (false, optShow errorElementId "Password must be at least 8 characters long")
  else if !(lookaheadTest password) then
    (false, optShow errorElementId "Password must contain both letters and numbers")
  else
    (true, optClear errorElementId)

/-- `AuthController.validatePassword` as defined the second time
(authentication.js lines 414-438). -/
def validatePasswordSnd (password : List Char) (errorElementId : Option String) :
    Bool × List Effect :=
  if password = [] then
    (false, optShow errorElementId "Password is required")
  else if password.length < 8 then
    (false, optShow errorElementId "Password must be at least 8 characters long")
  else if !(lookaheadTest password) then
    (false, optShow errorElementId "Password must contain both letters and numbers")
  else
    (true, optClear errorElementId)

/-- `AuthController.validatePasswordConfirm` as defined the first time
(authentication.js lines 305-314): `password` is the current value of the
registration password field, `confirmPassword` the event target's value. -/
def validatePasswordConfirmFst (password confirmPassword : List Char) : List Effect :=
  if confirmPassword ≠ [] && password ≠ confirmPassword then
    [Effect.showErrAct "confirmPasswordError" "Passwords do not match"]
  else
    [Effect.clearErrAct "confirmPasswordError"]

/-- `AuthController.validatePasswordConfirm` as defined the second time
(authentication.js lines 444-453). -/
def validatePasswordConfirmSnd (password confirmPassword : List Char) : List Effect :=
  if confirmPassword ≠ [] && password ≠ confirmPassword then
    [Effect.showErrAct "confirmPasswordError" "Passwords do not match"]
  else
    [Effect.clearErrAct "confirmPasswordError"]

/-! ## Form-level validation -/

/-- `AuthController.validateLoginForm(username, password)`
(authentication.js lines 149-167): requires both fields non-empty,
showing/clearing the per-field required errors. -/
def validateLoginForm (username password : List Char) : Bool × List Effect :=
  let uPart : Bool × List Effect :=
    if username = [] then
      (false, [Effect.showErrAct "loginUsernameError" "Username is required"])
    else
      (true, [Effect.clearErrAct "loginUsernameError"])
  let pPart : Bool × List Effect :=
    if password = [] then
      (false, [Effect.showErrAct "loginPasswordError" "Password is required"])
    else
      (true, [Effect.clearErrAct "loginPasswordError"])
  (uPart.1 && pPart.1, uPart.2 ++ pPart.2)

/-- The registration form data gathered by `handleRegister`
(authentication.js lines 55-61). -/
structure RegForm where
  username : List Char
  email : List Char
  password : List Char
  confirmPassword : List Char
  acceptTerms : Bool
deriving DecidableEq

/-- The password-confirmation branch of `validateRegistrationForm`
(authentication.js lines 192-198). -/
def registrationConfirmCheck (password confirmPassword : List Char) :
    Bool × List Effect :=
  if password ≠ confirmPassword then
    (false, [Effect.showErrAct "confirmPasswordError" "Passwords do not match"])
  else
    (true, [Effect.clearErrAct "confirmPasswordError"])

/-- The terms-acceptance branch of `validateRegistrationForm`
(authentication.js lines 200-206). -/
def registrationTermsCheck (acceptTerms : Bool) : Bool × List Effect :=
  if !acceptTerms then
    (false, [Effect.showErrAct "termsError" "You must accept the terms to continue"])
  else
    (true, [Effect.clearErrAct "termsError"])

/-- `AuthController.validateRegistrationForm(formData)`
(authentication.js lines 174-209).  All five checks run unconditionally
(the source accumulates into `isValid` without short-circuiting a check's
effects); the later duplicate of each validator method is the one bound on
the class, so the `Snd` transcriptions are used. -/
def validateRegistrationForm (f : RegForm) : Bool × List Effect :=
  let u := validateUsernameSnd f.username (some "registerUsernameError")
  let e := validateEmailSnd f.email (some "registerEmailError")
  let p := validatePasswordSnd f.password (some "registerPasswordError")
  let c := registrationConfirmCheck f.password f.confirmPassword
  let t := registrationTermsCheck f.acceptTerms
  (u.1 && e.1 && p.1 && c.1 && t.1, u.2 ++ e.2 ++ p.2 ++ c.2 ++ t.2)

/-! ## Submit handlers

Each handler is modelled as the ordered trace of effects it performs,
parameterised by the form values and by the outcome `apiOk` of the
simulated API call (`simulateAPICall` resolves or rejects at random; the
model quantifies over the outcome).  Deferred `setTimeout` callbacks run
after the `finally` block, so their effects follow the final
`setLoading ... false`. -/

/-- `AuthController.handleLogin` (authentication.js lines 105-141).
`username` and `password` are the (trimmed) field values and `rememberMe`
the checkbox state. -/
def handleLogin (username password : List Char) (rememberMe apiOk : Bool) :
    List Effect :=
  let v := validateLoginForm username password
  v.2 ++
  if !v.1 then []
  else
    [Effect.setLoading "loginBtn" true, Effect.apiCall 1500] ++
    (if apiOk then
      (if rememberMe then [Effect.storageSet "rememberedUsername" username]
       else [Effect.storageRemove "rememberedUsername"]) ++
      [Effect.notifyEffect "Login successful! Welcome back to PawPals!" "success",
       Effect.setLoading "loginBtn" false,
       Effect.navigate "homepage.html"]
    else
      [Effect.notifyEffect "Login failed. Please check your credentials." "error",
       Effect.setLoading "loginBtn" false])

/-- `AuthController.handleRegister` (authentication.js lines 52-87).  On
success the deferred callback calls `goToLogin` (navigation to
`login.html`, authentication.js lines 458-460) and pre-fills the login
username field with the submitted username. -/
def handleRegister (f : RegForm) (apiOk : Bool) : List Effect :=
  let v := validateRegistrationForm f
  v.2 ++
  if !v.1 then []
  else
    [Effect.setLoading "registerBtn" true, Effect.apiCall 2000] ++
    (if apiOk then
      [Effect.notifyEffect "Account created successfully! Welcome to PawPals!" "success",
       Effect.setLoading "registerBtn" false,
       Effect.navigate "login.html",
       Effect.setFieldValue "loginUsername" f.username]
    else
      [Effect.notifyEffect "Registration failed. Please try again." "error",
       Effect.setLoading "registerBtn" false])

/-- `AuthController.handleForgotPassword` (authentication.js lines
320-347). -/
def handleForgotPassword (email : List Char) (apiOk : Bool) : List Effect :=
  let v := validateEmailSnd email (some "forgotEmailError")
  v.2 ++
  if !v.1 then []
  else
    [Effect.setLoading "forgotBtn" true, Effect.apiCall 1500] ++
    (if apiOk then
      [Effect.hideElem "forgotPasswordForm",
       Effect.showElem "resetSuccessMessage",
       Effect.showElem "backToLogin",
       Effect.notifyEffect "Password reset link sent to your email!" "success",
       Effect.setLoading "forgotBtn" false]
    else
      [Effect.notifyEffect "Failed to send reset link. Please try again." "error",
       Effect.setLoading "forgotBtn" false])

/-! ## Observations over effect traces -/

/-- The value of the `rememberedUsername` localStorage key after running a
trace from initial store contents `store0`. -/
def runStorage (store0 : Option (List Char)) : List Effect → Option (List Char)
  | [] => store0
  | Effect.storageSet k v :: rest =>
      runStorage (if k = "rememberedUsername" then some v else store0) rest
  | Effect.storageRemove k :: rest =>
      runStorage (if k = "rememberedUsername" then none else store0) rest
  | _ :: rest => runStorage store0 rest

/-- Effects that only touch per-field error display (a form that performs
only these stays idle: no API call, no loading state, no notification, no
navigation, no storage change). -/
def fieldErrorEffect : Effect → Bool
  | Effect.showErrAct _ _ => true
  | Effect.clearErrAct _ => true
  | _ => false

/-! ## Field-error display elements

`showFieldError`/`clearFieldError` (authentication.js lines 500-518) act
on a DOM error element: setting/erasing its `textContent` and toggling its
`show` class.  An element is modelled by those two observables; `classList`
is a set, so the class toggle is a boolean flag. -/

structure ErrElem where
  textContent : String
  showClass : Bool
deriving DecidableEq

/-- `AuthController.showFieldError` applied to an existing error element:
`textContent = message; classList.add('show')`. -/
def showFieldError (message : String) (e : ErrElem) : ErrElem :=
  { e with textContent := message, showClass := true }

/-- `AuthController.clearFieldError` applied to an existing error element:
`textContent = ''; classList.remove('show')`. -/
def clearFieldError (e : ErrElem) : ErrElem :=
  { e with textContent := "", showClass := false }

/-! ## Characterisation of the username matcher -/

/-- The scanner `usernameGo` accepts exactly the all-word-character inputs
whose total count (including the `n` characters already consumed) lies in
the bounds `{3,20}`. -/
theorem usernameGo_eq (s : List Char) :
    ∀ n, usernameGo s n =
      (s.all isWordChar && decide (3 ≤ n + s.length) && decide (n + s.length ≤ 20)) := by
  induction s with
  | nil => intro n; simp [usernameGo]
  | cons c rest ih =>
      intro n
      have h1 : n + 1 + rest.length = n + (rest.length + 1) := by omega
      simp [usernameGo, ih, List.all_cons, List.length_cons, h1, Bool.and_assoc]

/-- The embedded `/^[a-zA-Z0-9_]{3,20}$/` test holds exactly when the
input has between 3 and 20 characters, all of them word characters. -/
theorem usernameRegexTest_iff (s : List Char) :
    usernameRegexTest s = true ↔
      (3 ≤ s.length ∧ s.length ≤ 20 ∧ ∀ c ∈ s, isWordChar c = true) := by
  simp only [usernameRegexTest, usernameGo_eq, Nat.zero_add, Bool.and_eq_true,
    decide_eq_true_eq, List.all_eq_true]
  tauto

/-- `validateUsername` agrees with the bare regex test: the extra
`!username` guard of the source only rejects the empty string, which the
regex rejects as well. -/
theorem validateUsername_eq_test (s : List Char) :
    validateUsername s = usernameRegexTest s := by
  by_cases h : s = []
  · subst h; simp [validateUsername, usernameRegexTest, usernameGo]
  · simp only [validateUsername, if_neg h]
    cases usernameRegexTest s <;> simp

/-! ## Characterisation of the password validator

The two lookaheads are evaluated at a common start position and `.`
cannot cross a line terminator, so the composition test succeeds exactly
when some contiguous line-terminator-free segment of the input contains
both a letter and a digit. -/

theorem not_lineTerminator_of_letter (c : Char) (h : isLetterChar c = true) :
    isLineTerminator c = false := by
  rcases Bool.eq_false_or_eq_true (isLineTerminator c) with ht | hf
  · simp only [isLineTerminator, Bool.or_eq_true, beq_iff_eq] at ht
    rcases ht with ((rfl | rfl) | rfl) | rfl <;> exact absurd h (by decide)
  · exact hf

theorem not_lineTerminator_of_digit (c : Char) (h : isDigitChar c = true) :
    isLineTerminator c = false := by
  rcases Bool.eq_false_or_eq_true (isLineTerminator c) with ht | hf
  · simp only [isLineTerminator, Bool.or_eq_true, beq_iff_eq] at ht
    rcases ht with ((rfl | rfl) | rfl) | rfl <;> exact absurd h (by decide)
  · exact hf

/-- A single lookahead `(?=.*p)` holds at the head of `l` exactly when
some line-terminator-free prefix of `l` contains a `p`-character
(provided `p`-characters are themselves not line terminators). -/
theorem dotStarClass_prefix_iff (p : Char → Bool)
    (hp : ∀ c, p c = true → isLineTerminator c = false) (l : List Char) :
    dotStarClass p l = true ↔
      ∃ blk, blk <+: l ∧ (∀ c ∈ blk, isLineTerminator c = false) ∧
        ∃ c ∈ blk, p c = true := by
  induction l with
  | nil =>
      simp only [dotStarClass]
      constructor
      · intro h; cases h
      · rintro ⟨blk, hpre, -, c, hc, -⟩
        rw [List.prefix_nil] at hpre
        subst hpre
        exact absurd hc (List.not_mem_nil c)
  | cons a rest ih =>
      simp only [dotStarClass, Bool.or_eq_true, Bool.and_eq_true, Bool.not_eq_true']
      constructor
      · rintro (hpa | ⟨hlt, hd⟩)
        · refine ⟨[a], ⟨rest, rfl⟩, ?_, a, List.mem_singleton.2 rfl, hpa⟩
          intro x hx
          rw [List.mem_singleton] at hx
          subst hx
          exact hp _ hpa
        · rcases ih.1 hd with ⟨blk, hpre, hfree, c, hc, hpc⟩
          refine ⟨a :: blk, List.cons_prefix_cons.2 ⟨rfl, hpre⟩, ?_, c,
            List.mem_cons_of_mem a hc, hpc⟩
          intro x hx
          rcases List.mem_cons.1 hx with rfl | hx
          · exact hlt
          · exact hfree x hx
      · rintro ⟨blk, hpre, hfree, c, hc, hpc⟩
        cases blk with
        | nil => exact absurd hc (List.not_mem_nil c)
        | cons b blk' =>
            rcases List.cons_prefix_cons.1 hpre with ⟨rfl, hpre'⟩
            rcases List.mem_cons.1 hc with rfl | hc'
            · exact Or.inl hpc
            · exact Or.inr ⟨hfree b (List.mem_cons_self b blk'),
                ih.2 ⟨blk', hpre', fun x hx => hfree x (List.mem_cons_of_mem b hx),
                  c, hc', hpc⟩⟩

/-- Both lookaheads hold at the head of `l` exactly when a single
line-terminator-free prefix of `l` contains a letter and a digit (the two
per-lookahead prefixes are comparable, so the longer one serves both). -/
theorem bothLookaheads_iff (l : List Char) :
    (dotStarClass isLetterChar l && dotStarClass isDigitChar l) = true ↔
      ∃ blk, blk <+: l ∧ (∀ c ∈ blk, isLineTerminator c = false) ∧
        (∃ c ∈ blk, isLetterChar c = true) ∧ (∃ c ∈ blk, isDigitChar c = true) := by
  rw [Bool.and_eq_true, dotStarClass_prefix_iff isLetterChar not_lineTerminator_of_letter,
    dotStarClass_prefix_iff isDigitChar not_lineTerminator_of_digit]
  constructor
  · rintro ⟨⟨blk1, hp1, hf1, c1, hc1, hl1⟩, blk2, hp2, hf2, c2, hc2, hd2⟩
    rcases List.prefix_or_prefix_of_prefix hp1 hp2 with h12 | h21
    · exact ⟨blk2, hp2, hf2, ⟨c1, h12.subset hc1, hl1⟩, c2, hc2, hd2⟩
    · exact ⟨blk1, hp1, hf1, ⟨c1, hc1, hl1⟩, c2, h21.subset hc2, hd2⟩
  · rintro ⟨blk, hpre, hfree, hl, hd⟩
    exact ⟨⟨blk, hpre, hfree, hl⟩, blk, hpre, hfree, hd⟩

/-- The embedded lookahead test holds exactly when the string contains a
contiguous line-terminator-free segment with both a letter and a digit. -/
theorem lookaheadTest_iff (s : List Char) :
    lookaheadTest s = true ↔
      ∃ pre blk post, s = pre ++ (blk ++ post) ∧
        (∀ c ∈ blk, isLineTerminator c = false) ∧
        (∃ c ∈ blk, isLetterChar c = true) ∧ (∃ c ∈ blk, isDigitChar c = true) := by
  induction s with
  | nil =>
      simp only [lookaheadTest]
      constructor
      · intro h; cases h
      · rintro ⟨pre, blk, post, hEq, -, ⟨c, hc, -⟩, -⟩
        have hblk : blk = [] := by
          rcases List.append_eq_nil.1 hEq.symm with ⟨-, h2⟩
          exact (List.append_eq_nil.1 h2).1
        subst hblk
        exact absurd hc (List.not_mem_nil c)
  | cons a rest ih =>
      constructor
      · intro h
        simp only [lookaheadTest, Bool.or_eq_true] at h
        rcases h with hboth | htail
        · rcases (bothLookaheads_iff (a :: rest)).1 hboth with ⟨blk, ⟨post, hpost⟩, hf, hl, hd⟩
          exact ⟨[], blk, post, by simp [hpost], hf, hl, hd⟩
        · rcases ih.1 htail with ⟨pre, blk, post, hEq, hf, hl, hd⟩
          exact ⟨a :: pre, blk, post, by simp [hEq], hf, hl, hd⟩
      · rintro ⟨pre, blk, post, hEq, hf, hl, hd⟩
        cases pre with
        | nil =>
            simp only [List.nil_append] at hEq
            simp only [lookaheadTest, Bool.or_eq_true]
            exact Or.inl ((bothLookaheads_iff (a :: rest)).2 ⟨blk, ⟨post, hEq.symm⟩, hf, hl, hd⟩)
        | cons x pre' =>
            simp only [List.cons_append, List.cons.injEq] at hEq
            obtain ⟨rfl, hEq'⟩ := hEq
            simp only [lookaheadTest, Bool.or_eq_true]
            exact Or.inr (ih.2 ⟨pre', blk, post, hEq', hf, hl, hd⟩)

/-- `validatePassword` holds exactly when the input has at least 8
characters and some contiguous line-terminator-free segment of it
contains both a letter and a digit (the emptiness guard of the source is
subsumed by the length bound). -/
theorem validatePassword_iff (s : List Char) :
    validatePassword s = true ↔
      (8 ≤ s.length ∧ ∃ pre blk post, s = pre ++ (blk ++ post) ∧
        (∀ c ∈ blk, isLineTerminator c = false) ∧
        (∃ c ∈ blk, isLetterChar c = true) ∧ (∃ c ∈ blk, isDigitChar c = true)) := by
  by_cases h1 : s = []
  · subst h1; simp [validatePassword]
  · by_cases h2 : s.length < 8
    · simp only [validatePassword, if_neg h1, if_pos h2]
      constructor
      · intro h; cases h
      · rintro ⟨h8, -⟩; omega
    · simp only [validatePassword, if_neg h1, if_neg h2]
      cases hx : lookaheadTest s with
      | false =>
          simp only [hx, Bool.not_false, if_pos]
          constructor
          · intro h; cases h
          · rintro ⟨-, hblk⟩
            exact absurd ((lookaheadTest_iff s).2 hblk) (by simp [hx])
      | true =>
          simp only [hx, Bool.not_true, Bool.false_eq_true, if_false]
          refine ⟨fun _ => ⟨by omega, (lookaheadTest_iff s).1 hx⟩, fun _ => trivial⟩

/-! ## Characterisation of the email matcher -/

/-- Declarative reading of `/^[^\s@]+@[^\s@]+\.[^\s@]+$/`: the string
splits as `A ++ '@' ++ B ++ '.' ++ C` with `A`, `B`, `C` non-empty and
every character of `A`, `B`, `C` in the class `[^\s@]` (in particular the
string has exactly one `'@'`, though `B` and `C` may contain further
dots). -/
def EmailMatch (s : List Char) : Prop :=
  ∃ A B C, s = A ++ '@' :: (B ++ '.' :: C) ∧
    A ≠ [] ∧ B ≠ [] ∧ C ≠ [] ∧
    (∀ c ∈ A, emailCharOk c = true) ∧
    (∀ c ∈ B, emailCharOk c = true) ∧
    (∀ c ∈ C, emailCharOk c = true)

theorem matchAfterDot_iff (l : List Char) :
    matchAfterDot l = true ↔ l ≠ [] ∧ ∀ c ∈ l, emailCharOk c = true := by
  simp [matchAfterDot, List.isEmpty_iff, List.all_eq_true]

theorem matchDotRest_iff (l : List Char) :
    matchDotRest l = true ↔
      ∃ B C, l = B ++ '.' :: C ∧ (∀ c ∈ B, emailCharOk c = true) ∧
        C ≠ [] ∧ (∀ c ∈ C, emailCharOk c = true) := by
  induction l with
  | nil =>
      simp only [matchDotRest]
      constructor
      · intro h; cases h
      · rintro ⟨B, C, hEq, -⟩
        exact absurd hEq.symm (List.append_ne_nil_of_right_ne_nil B (by simp))
  | cons c rest ih =>
      constructor
      · intro h
        simp only [matchDotRest, Bool.or_eq_true, Bool.and_eq_true, beq_iff_eq] at h
        rcases h with ⟨hc, hd⟩ | ⟨hc, hd⟩
        · subst hc
          rcases (matchAfterDot_iff rest).1 hd with ⟨hne, hall⟩
          exact ⟨[], rest, rfl, by simp, hne, hall⟩
        · rcases ih.1 hd with ⟨B, C, hEq, hB, hC, hCall⟩
          refine ⟨c :: B, C, by simp [hEq], ?_, hC, hCall⟩
          intro x hx
          rcases List.mem_cons.1 hx with rfl | hx
          · exact hc
          · exact hB x hx
      · rintro ⟨B, C, hEq, hB, hC, hCall⟩
        cases B with
        | nil =>
            simp only [List.nil_append, List.cons.injEq] at hEq
            obtain ⟨rfl, rfl⟩ := hEq
            simp only [matchDotRest, Bool.or_eq_true, Bool.and_eq_true, beq_iff_eq]
            exact Or.inl ⟨by simp, (matchAfterDot_iff _).2 ⟨hC, hCall⟩⟩
        | cons b B' =>
            simp only [List.cons_append, List.cons.injEq] at hEq
            obtain ⟨rfl, rfl⟩ := hEq
            simp only [matchDotRest, Bool.or_eq_true, Bool.and_eq_true, beq_iff_eq]
            refine Or.inr ⟨hB c (List.mem_cons_self c B'), ?_⟩
            refine ih.2 ⟨B', C, rfl, ?_, hC, hCall⟩
            exact fun x hx => hB x (List.mem_cons_of_mem c hx)

theorem matchDomain_iff (l : List Char) :
    matchDomain l = true ↔
      ∃ B C, l = B ++ '.' :: C ∧ B ≠ [] ∧ (∀ c ∈ B, emailCharOk c = true) ∧
        C ≠ [] ∧ (∀ c ∈ C, emailCharOk c = true) := by
  cases l with
  | nil =>
      simp only [matchDomain]
      constructor
      · intro h; cases h
      · rintro ⟨B, C, hEq, -⟩
        exact absurd hEq.symm (List.append_ne_nil_of_right_ne_nil B (by simp))
  | cons c rest =>
      simp only [matchDomain, Bool.and_eq_true, matchDotRest_iff]
      constructor
      · rintro ⟨hc, B', C, hEq, hB, hC, hCall⟩
        refine ⟨c :: B', C, by simp [hEq], by simp, ?_, hC, hCall⟩
        intro x hx
        rcases List.mem_cons.1 hx with rfl | hx
        · exact hc
        · exact hB x hx
      · rintro ⟨B, C, hEq, hBne, hB, hC, hCall⟩
        cases B with
        | nil => exact absurd rfl hBne
        | cons b B' =>
            simp only [List.cons_append, List.cons.injEq] at hEq
            obtain ⟨rfl, rfl⟩ := hEq
            refine ⟨hB c (List.mem_cons_self c B'), B', C, rfl, ?_, hC, hCall⟩
            exact fun x hx => hB x (List.mem_cons_of_mem c hx)

theorem matchAtRest_iff (l : List Char) :
    matchAtRest l = true ↔
      ∃ A rest, l = A ++ '@' :: rest ∧ (∀ c ∈ A, emailCharOk c = true) ∧
        matchDomain rest = true := by
  induction l with
  | nil =>
      simp only [matchAtRest]
      constructor
      · intro h; cases h
      · rintro ⟨A, rest, hEq, -⟩
        exact absurd hEq.symm (List.append_ne_nil_of_right_ne_nil A (by simp))
  | cons c tl ih =>
      constructor
      · intro h
        simp only [matchAtRest, Bool.or_eq_true, Bool.and_eq_true, beq_iff_eq] at h
        rcases h with ⟨hc, hd⟩ | ⟨hc, hd⟩
        · subst hc
          exact ⟨[], tl, rfl, by simp, hd⟩
        · rcases ih.1 hd with ⟨A, rest, hEq, hA, hdom⟩
          refine ⟨c :: A, rest, by simp [hEq], ?_, hdom⟩
          intro x hx
          rcases List.mem_cons.1 hx with rfl | hx
          · exact hc
          · exact hA x hx
      · rintro ⟨A, rest, hEq, hA, hdom⟩
        cases A with
        | nil =>
            simp only [List.nil_append, List.cons.injEq] at hEq
            obtain ⟨rfl, rfl⟩ := hEq
            simp only [matchAtRest, Bool.or_eq_true, Bool.and_eq_true, beq_iff_eq]
            exact Or.inl ⟨by simp, hdom⟩
        | cons a A' =>
            simp only [List.cons_append, List.cons.injEq] at hEq
            obtain ⟨rfl, rfl⟩ := hEq
            simp only [matchAtRest, Bool.or_eq_true, Bool.and_eq_true, beq_iff_eq]
            refine Or.inr ⟨hA c (List.mem_cons_self c A'), ?_⟩
            refine ih.2 ⟨A', rest, rfl, ?_, hdom⟩
            exact fun x hx => hA x (List.mem_cons_of_mem c hx)

/-- The embedded email regex test holds exactly on strings of the shape
`A ++ '@' ++ B ++ '.' ++ C` described by `EmailMatch`. -/
theorem emailRegexTest_iff (s : List Char) :
    emailRegexTest s = true ↔ EmailMatch s := by
  cases s with
  | nil =>
      simp only [emailRegexTest, EmailMatch]
      constructor
      · intro h; cases h
      · rintro ⟨A, B, C, hEq, -⟩
        exact absurd hEq.symm (List.append_ne_nil_of_right_ne_nil A (by simp))
  | cons c rest =>
      simp only [emailRegexTest, Bool.and_eq_true, matchAtRest_iff, matchDomain_iff,
        EmailMatch]
      constructor
      · rintro ⟨hc, A', dom, hEq, hA, B, C, hDomEq, hBne, hB, hC, hCall⟩
        refine ⟨c :: A', B, C, by simp [hEq, hDomEq], by simp, hBne, hC, ?_, hB, hCall⟩
        intro x hx
        rcases List.mem_cons.1 hx with rfl | hx
        · exact hc
        · exact hA x hx
      · rintro ⟨A, B, C, hEq, hAne, hBne, hCne, hA, hB, hC⟩
        cases A with
        | nil => exact absurd rfl hAne
        | cons a A' =>
            simp only [List.cons_append, List.cons.injEq] at hEq
            obtain ⟨rfl, rfl⟩ := hEq
            refine ⟨hA c (List.mem_cons_self c A'), A', B ++ '.' :: C, rfl, ?_, B, C,
              rfl, hBne, hB, hCne, hC⟩
            exact fun x hx => hA x (List.mem_cons_of_mem c hx)

/-- `validateEmail` agrees with the bare regex test (the `!email` guard of
the source only rejects the empty string, which the regex rejects too). -/
theorem validateEmail_eq_test (s : List Char) :
    validateEmail s = emailRegexTest s := by
  by_cases h : s = []
  · subst h; simp [validateEmail, emailRegexTest]
  · simp only [validateEmail, if_neg h]
    cases emailRegexTest s <;> simp

/-! ## Agreement between the effectful validators and the pure ones -/

theorem validateUsernameSnd_bool (u : List Char) (eid : Option String) :
    (validateUsernameSnd u eid).1 = validateUsername u := by
  by_cases h1 : u = []
  · simp [validateUsernameSnd, validateUsername, h1]
  · cases ht : usernameRegexTest u <;>
      simp [validateUsernameSnd, validateUsername, h1, ht]

theorem validateEmailSnd_bool (em : List Char) (eid : Option String) :
    (validateEmailSnd em eid).1 = validateEmail em := by
  by_cases h1 : em = []
  · simp [validateEmailSnd, validateEmail, h1]
  · cases ht : emailRegexTest em <;>
      simp [validateEmailSnd, validateEmail, h1, ht]

theorem validatePasswordSnd_bool (pw : List Char) (eid : Option String) :
    (validatePasswordSnd pw eid).1 = validatePassword pw := by
  by_cases h1 : pw = []
  · simp [validatePasswordSnd, validatePassword, h1]
  · by_cases h2 : pw.length < 8
    · simp [validatePasswordSnd, validatePassword, h1, h2]
    · cases hx : lookaheadTest pw <;>
        simp [validatePasswordSnd, validatePassword, h1, h2, hx]

/-! ## Validation performs only field-error effects -/

theorem optShow_fieldErr (eid : Option String) (msg : String) :
    (optShow eid msg).all fieldErrorEffect = true := by
  cases eid <;> simp [optShow, fieldErrorEffect]

theorem optClear_fieldErr (eid : Option String) :
    (optClear eid).all fieldErrorEffect = true := by
  cases eid <;> simp [optClear, fieldErrorEffect]

theorem validateUsernameSnd_fieldErr (u : List Char) (eid : Option String) :
    ((validateUsernameSnd u eid).2).all fieldErrorEffect = true := by
  by_cases h1 : u = []
  · simp [validateUsernameSnd, h1, optShow_fieldErr]
  · cases ht : usernameRegexTest u <;>
      simp [validateUsernameSnd, h1, ht, optShow_fieldErr, optClear_fieldErr]

theorem validateEmailSnd_fieldErr (em : List Char) (eid : Option String) :
    ((validateEmailSnd em eid).2).all fieldErrorEffect = true := by
  by_cases h1 : em = []
  · simp [validateEmailSnd, h1, optShow_fieldErr]
  · cases ht : emailRegexTest em <;>
      simp [validateEmailSnd, h1, ht, optShow_fieldErr, optClear_fieldErr]

theorem validatePasswordSnd_fieldErr (pw : List Char) (eid : Option String) :
    ((validatePasswordSnd pw eid).2).all fieldErrorEffect = true := by
  by_cases h1 : pw = []
  · simp [validatePasswordSnd, h1, optShow_fieldErr]
  · by_cases h2 : pw.length < 8
    · simp [validatePasswordSnd, h1, h2, optShow_fieldErr]
    · cases hx : lookaheadTest pw <;>
        simp [validatePasswordSnd, h1, h2, hx, optShow_fieldErr, optClear_fieldErr]

theorem registrationConfirmCheck_fieldErr (pw c : List Char) :
    ((registrationConfirmCheck pw c).2).all fieldErrorEffect = true := by
  by_cases h : pw = c <;> simp [registrationConfirmCheck, h, fieldErrorEffect]

theorem registrationTermsCheck_fieldErr (t : Bool) :
    ((registrationTermsCheck t).2).all fieldErrorEffect = true := by
  cases t <;> simp [registrationTermsCheck, fieldErrorEffect]

theorem validateLoginForm_fieldErr (u p : List Char) :
    ((validateLoginForm u p).2).all fieldErrorEffect = true := by
  by_cases h1 : u = [] <;> by_cases h2 : p = [] <;>
    simp [validateLoginForm, h1, h2, fieldErrorEffect]

theorem validateRegistrationForm_fieldErr (f : RegForm) :
    ((validateRegistrationForm f).2).all fieldErrorEffect = true := by
  simp [validateRegistrationForm, List.all_append, validateUsernameSnd_fieldErr,
    validateEmailSnd_fieldErr, validatePasswordSnd_fieldErr,
    registrationConfirmCheck_fieldErr, registrationTermsCheck_fieldErr]

/-! ## Login-form validation characterisation -/

theorem validateLoginForm_bool (u p : List Char) :
    (validateLoginForm u p).1 = true ↔ (u ≠ [] ∧ p ≠ []) := by
  by_cases h1 : u = [] <;> by_cases h2 : p = [] <;>
    simp [validateLoginForm, h1, h2]

/-! ## Storage semantics -/

theorem runStorage_append (st : Option (List Char)) (l1 l2 : List Effect) :
    runStorage st (l1 ++ l2) = runStorage (runStorage st l1) l2 := by
  induction l1 generalizing st with
  | nil => rfl
  | cons e rest ih => cases e <;> simp [runStorage, ih]

theorem runStorage_fieldErr (st : Option (List Char)) (l : List Effect)
    (h : l.all fieldErrorEffect = true) : runStorage st l = st := by
  induction l generalizing st with
  | nil => rfl
  | cons e rest ih =>
      rw [List.all_cons, Bool.and_eq_true] at h
      cases e <;> simp_all [runStorage, fieldErrorEffect]

/-! ## The claims -/

/-- C1: for every string `s`, `validateUsername` called with `s` and no
error-element id returns exactly the result of testing `s` against
`^[a-zA-Z0-9_]{3,20}$` — i.e. true when `s` consists of 3 to 20 word
characters and false otherwise; in particular `"john123"` yields true while
`"ab"` and `"user@name"` yield false. -/
theorem claim_C1_username_validator :
    (∀ s, validateUsername s = usernameRegexTest s) ∧
    (∀ s, validateUsername s = true ↔
      (3 ≤ s.length ∧ s.length ≤ 20 ∧ ∀ c ∈ s, isWordChar c = true)) ∧
    validateUsername ("john123".toList) = true ∧
    validateUsername ("ab".toList) = false ∧
    validateUsername ("user@name".toList) = false := by
  refine ⟨validateUsername_eq_test, ?_, by decide, by decide, by decide⟩
  intro s
  rw [validateUsername_eq_test]
  exact usernameRegexTest_iff s

/-- C2 counterexample: the 17-character string `"aaaaaaaa\n11111111"`
has length at least 8 and contains both a letter and a digit, yet
`validatePassword` returns false on it — the letters and the digits lie
on different lines, and the lookaheads of
`/(?=.*[a-zA-Z])(?=.*[0-9])/` cannot cross the line terminator.  This
refutes the claim that the validator returns true whenever the length and
letter/digit-containment conditions hold. -/
theorem claim_C2_counterexample :
    validatePassword ("aaaaaaaa\n11111111".toList) = false ∧
    8 ≤ ("aaaaaaaa\n11111111".toList).length ∧
    ("aaaaaaaa\n11111111".toList).any isLetterChar = true ∧
    ("aaaaaaaa\n11111111".toList).any isDigitChar = true :=
  ⟨by decide, by decide, by decide, by decide⟩

/-- C2 (amended): `validatePassword` called with a string and no
error-element id returns true if and only if the string has length at
least 8 and some contiguous line-terminator-free segment of it contains
at least one letter and at least one digit (ECMAScript `.` does not match
line terminators, so the two lookaheads must be satisfied without
crossing one); in particular `"password123"` yields true while
`"short"`, `"onlyletters"` and `"12345678"` yield false. -/
theorem claim_C2_password_validator :
    (∀ s, validatePassword s = true ↔
      (8 ≤ s.length ∧ ∃ pre blk post, s = pre ++ (blk ++ post) ∧
        (∀ c ∈ blk, isLineTerminator c = false) ∧
        (∃ c ∈ blk, isLetterChar c = true) ∧ (∃ c ∈ blk, isDigitChar c = true))) ∧
    validatePassword ("password123".toList) = true ∧
    validatePassword ("short".toList) = false ∧
    validatePassword ("onlyletters".toList) = false ∧
    validatePassword ("12345678".toList) = false :=
  ⟨validatePassword_iff, by decide, by decide, by decide, by decide⟩

/-- C3: `validateEmail` called with a string and no error-element id
returns true exactly on the strings matching `^[^\s@]+@[^\s@]+\.[^\s@]+$`
(the shape described by `EmailMatch`) and false on all others; in
particular `"user@example.com"` yields true while `"invalid.email"` and
`"@domain.com"` yield false. -/
theorem claim_C3_email_validator :
    (∀ s, validateEmail s = true ↔ EmailMatch s) ∧
    validateEmail ("user@example.com".toList) = true ∧
    validateEmail ("invalid.email".toList) = false ∧
    validateEmail ("@domain.com".toList) = false := by
  refine ⟨?_, by decide, by decide, by decide⟩
  intro s
  rw [validateEmail_eq_test]
  exact emailRegexTest_iff s

/-- C4: after a login submission the `rememberedUsername` storage key
holds the submitted username when the form was valid, the simulated call
succeeded and remember-me was set; it is removed when the form was valid,
the call succeeded and remember-me was clear; in every other case
(validation failure or simulated-call failure) the stored value is left
unchanged. -/
theorem claim_C4_remember_me_storage :
    ∀ (u p : List Char) (rm ok : Bool) (st0 : Option (List Char)),
      runStorage st0 (handleLogin u p rm ok) =
        if ((validateLoginForm u p).1 && ok) = true then
          (if rm = true then some u else none)
        else st0 := by
  intro u p rm ok st0
  cases hv : (validateLoginForm u p).1 with
  | false =>
      simp [handleLogin, hv, runStorage_append,
        runStorage_fieldErr st0 _ (validateLoginForm_fieldErr u p)]
  | true =>
      cases ok with
      | false =>
          simp [handleLogin, hv, runStorage_append, runStorage,
            runStorage_fieldErr st0 _ (validateLoginForm_fieldErr u p)]
      | true =>
          cases rm <;>
            simp [handleLogin, hv, runStorage_append, runStorage,
              runStorage_fieldErr st0 _ (validateLoginForm_fieldErr u p)]

/-- C5: for each of the three submit handlers, when full-form validation
fails the handler returns before the simulated call: the resulting trace
consists of field-error display effects only — in particular it contains
no `apiCall`, no `setLoading`, no notification and no navigation, so the
form stays idle. -/
theorem claim_C5_validation_failure_keeps_idle :
    (∀ u p rm ok, (validateLoginForm u p).1 = false →
      (handleLogin u p rm ok).all fieldErrorEffect = true) ∧
    (∀ f ok, (validateRegistrationForm f).1 = false →
      (handleRegister f ok).all fieldErrorEffect = true) ∧
    (∀ em ok, validateEmail em = false →
      (handleForgotPassword em ok).all fieldErrorEffect = true) := by
  refine ⟨?_, ?_, ?_⟩
  · intro u p rm ok hv
    simp [handleLogin, hv, List.all_append, validateLoginForm_fieldErr]
  · intro f ok hv
    simp [handleRegister, hv, List.all_append, validateRegistrationForm_fieldErr]
  · intro em ok hv
    have hb : (validateEmailSnd em (some "forgotEmailError")).1 = false := by
      rw [validateEmailSnd_bool]; exact hv
    simp [handleForgotPassword, hb, List.all_append, validateEmailSnd_fieldErr]

/-- Witness for C5 at concrete invalid submissions (all-empty fields). -/
theorem claim_C5_witness :
    (handleLogin [] [] false true).all fieldErrorEffect = true ∧
    (handleRegister ⟨[], [], [], [], false⟩ true).all fieldErrorEffect = true ∧
    (handleForgotPassword [] true).all fieldErrorEffect = true :=
  ⟨claim_C5_validation_failure_keeps_idle.1 [] [] false true (by decide),
   claim_C5_validation_failure_keeps_idle.2.1 ⟨[], [], [], [], false⟩ true (by decide),
   claim_C5_validation_failure_keeps_idle.2.2 [] true (by decide)⟩

/-- C6: a registration submission whose username, email and password pass
their validators, whose confirmation equals the password and whose
accept-terms flag is set, in the simulated-success case, produces — after
the validation display effects — the loading phase, the success
notification, and then the navigation to `login.html` followed by
pre-filling the login username field with the submitted username. -/
theorem claim_C6_register_success_flow (f : RegForm)
    (hu : validateUsername f.username = true)
    (he : validateEmail f.email = true)
    (hp : validatePassword f.password = true)
    (hc : f.confirmPassword = f.password)
    (ht : f.acceptTerms = true) :
    handleRegister f true =
      (validateRegistrationForm f).2 ++
      [Effect.setLoading "registerBtn" true, Effect.apiCall 2000,
       Effect.notifyEffect "Account created successfully! Welcome to PawPals!" "success",
       Effect.setLoading "registerBtn" false,
       Effect.navigate "login.html",
       Effect.setFieldValue "loginUsername" f.username] := by
  have hv : (validateRegistrationForm f).1 = true := by
    simp [validateRegistrationForm, validateUsernameSnd_bool, validateEmailSnd_bool,
      validatePasswordSnd_bool, hu, he, hp, registrationConfirmCheck, hc,
      registrationTermsCheck, ht]
  simp [handleRegister, hv]

/-- Witness for C6 at a concrete valid registration form. -/
theorem claim_C6_witness :
    handleRegister
        ⟨"john123".toList, "user@example.com".toList, "password123".toList,
          "password123".toList, true⟩ true =
      (validateRegistrationForm
        ⟨"john123".toList, "user@example.com".toList, "password123".toList,
          "password123".toList, true⟩).2 ++
      [Effect.setLoading "registerBtn" true, Effect.apiCall 2000,
       Effect.notifyEffect "Account created successfully! Welcome to PawPals!" "success",
       Effect.setLoading "registerBtn" false,
       Effect.navigate "login.html",
       Effect.setFieldValue "loginUsername" ("john123".toList)] :=
  claim_C6_register_success_flow _ (by decide) (by decide) (by decide) rfl rfl

/-- C7: the confirm-password check reports no error when the confirmation
equals the password and reports the mismatch error when the two are
unequal and non-empty, both for the reactive `validatePasswordConfirm`
and for the confirmation branch of `validateRegistrationForm`. -/
theorem claim_C7_confirm_password_check :
    (∀ pw c, pw = c →
      validatePasswordConfirmSnd pw c = [Effect.clearErrAct "confirmPasswordError"] ∧
      registrationConfirmCheck pw c = (true, [Effect.clearErrAct "confirmPasswordError"])) ∧
    (∀ pw c, pw ≠ c → pw ≠ [] → c ≠ [] →
      validatePasswordConfirmSnd pw c =
        [Effect.showErrAct "confirmPasswordError" "Passwords do not match"] ∧
      registrationConfirmCheck pw c =
        (false, [Effect.showErrAct "confirmPasswordError" "Passwords do not match"])) := by
  constructor
  · rintro pw c rfl
    constructor <;> simp [validatePasswordConfirmSnd, registrationConfirmCheck]
  · intro pw c hne hpw hc
    constructor
    · simp [validatePasswordConfirmSnd, hc, hne]
    · simp [registrationConfirmCheck, hne]

/-- Witness for C7 at concrete equal and unequal password pairs. -/
theorem claim_C7_witness :
    (validatePasswordConfirmSnd ("a".toList) ("a".toList) =
        [Effect.clearErrAct "confirmPasswordError"] ∧
      registrationConfirmCheck ("a".toList) ("a".toList) =
        (true, [Effect.clearErrAct "confirmPasswordError"])) ∧
    (validatePasswordConfirmSnd ("a".toList) ("b".toList) =
        [Effect.showErrAct "confirmPasswordError" "Passwords do not match"] ∧
      registrationConfirmCheck ("a".toList) ("b".toList) =
        (false, [Effect.showErrAct "confirmPasswordError" "Passwords do not match"])) :=
  ⟨claim_C7_confirm_password_check.1 ("a".toList) ("a".toList) rfl,
   claim_C7_confirm_password_check.2 ("a".toList) ("b".toList)
     (by decide) (by decide) (by decide)⟩

/-- C8: field-error display is idempotent — clearing an already-cleared
error element (empty text, `show` flag off) leaves it unchanged, showing
the same message twice equals showing it once, and after a show the
element carries that single message with the `show` flag on. -/
theorem claim_C8_field_error_idempotent :
    (∀ e : ErrElem, e.textContent = "" → e.showClass = false →
      clearFieldError e = e) ∧
    (∀ (e : ErrElem) (m : String),
      showFieldError m (showFieldError m e) = showFieldError m e) ∧
    (∀ (e : ErrElem) (m : String),
      (showFieldError m e).textContent = m ∧ (showFieldError m e).showClass = true) := by
  refine ⟨?_, ?_, ?_⟩
  · intro e h1 h2
    cases e
    simp_all [clearFieldError]
  · intro e m
    rfl
  · intro e m
    exact ⟨rfl, rfl⟩

/-- Witness for C8 at a concrete cleared element and message. -/
theorem claim_C8_witness :
    clearFieldError ⟨"", false⟩ = (⟨"", false⟩ : ErrElem) ∧
    showFieldError "msg" (showFieldError "msg" ⟨"", false⟩) =
      showFieldError "msg" (⟨"", false⟩ : ErrElem) :=
  ⟨claim_C8_field_error_idempotent.1 ⟨"", false⟩ rfl rfl,
   claim_C8_field_error_idempotent.2.1 ⟨"", false⟩ "msg"⟩

/-- C9: the two textual definitions of each duplicated validator method
are extensionally equal — for every input and error-element id the first
and the second definition return the same boolean result and perform the
same error-display effects. -/
theorem claim_C9_duplicate_definitions_agree :
    (∀ u eid, validateUsernameFst u eid = validateUsernameSnd u eid) ∧
    (∀ em eid, validateEmailFst em eid = validateEmailSnd em eid) ∧
    (∀ pw eid, validatePasswordFst pw eid = validatePasswordSnd pw eid) ∧
    (∀ pw c, validatePasswordConfirmFst pw c = validatePasswordConfirmSnd pw c) :=
  ⟨fun _ _ => rfl, fun _ _ => rfl, fun _ _ => rfl, fun _ _ => rfl⟩

/-- C10: login-form validation accepts exactly the pairs of non-empty
strings — the username format rule and the password strength rules are
not applied at login submission, as shown by the accepted pair
`("ab", "short")` that both field validators reject. -/
theorem claim_C10_login_validation_nonempty :
    (∀ u p, (validateLoginForm u p).1 = true ↔ (u ≠ [] ∧ p ≠ [])) ∧
    (validateLoginForm ("ab".toList) ("short".toList)).1 = true ∧
    validateUsername ("ab".toList) = false ∧
    validatePassword ("short".toList) = false :=
  ⟨validateLoginForm_bool, by decide, by decide, by decide⟩

end PawPals
